import Mathlib

/-!
Verification development for the `mcp-client` core of the bookcase-mcp-v2
repository.  The Python modules `models.py`, `config.py`,
`connection_manager.py`, `tool_discovery.py` and `tool_executor.py` are
shallowly embedded below: pure functions become Lean functions, stateful
methods become explicit state-passing functions, transport I/O becomes an
oracle argument describing the outcome of the (single) transport operation a
method performs, and Python exceptions become `Except String`.
Wall-clock quantities (`time.time()`) are threaded as explicit `Int`
parameters; elapsed-time strings used only inside error messages are threaded
as an opaque `String` parameter.
-/

namespace MCPClient

/-! ## Python value model

A JSON-ish model of the Python runtime values that flow through the client.
`bool` is kept distinct from `int`, but the `isinstance` tests below reflect
that Python's `bool` is a subclass of `int`.  Floats are carried as rationals
(only their zero-test and type tag are ever observed by the embedded code).
-/

inductive PyVal where
  | str (s : String)
  | int (n : Int)
  | float (q : ℚ)
  | bool (b : Bool)
  | list (l : List PyVal)
  | dict (entries : List (String × PyVal))
  | pyNone

/-- Python truthiness (`if value:`). -/
def PyVal.truthy : PyVal → Bool
  | .str s => s ≠ ""
  | .int n => n ≠ 0
  | .float q => q ≠ 0
  | .bool b => b
  | .list l => !l.isEmpty
  | .dict d => !d.isEmpty
  | .pyNone => false

/-- Python `type(v).__name__`. -/
def PyVal.typeName : PyVal → String
  | .str _ => "str"
  | .int _ => "int"
  | .float _ => "float"
  | .bool _ => "bool"
  | .list _ => "list"
  | .dict _ => "dict"
  | .pyNone => "NoneType"

/-- Python `str(v)` as used in f-strings (floats and containers are only ever
rendered in diagnostics the claims do not inspect, so their rendering is
approximate). -/
def PyVal.pyStr : PyVal → String
  | .str s => s
  | .int n => toString n
  | .float q => toString q
  | .bool b => if b then "True" else "False"
  | .list _ => "<list>"
  | .dict _ => "<dict>"
  | .pyNone => "None"

/-- Python `isinstance(v, str)`. -/
def PyVal.isStr : PyVal → Bool
  | .str _ => true
  | _ => false

/-- Python `isinstance(v, int)`; `bool` is a subclass of `int` in Python, so
boolean values satisfy this test. -/
def PyVal.isInt : PyVal → Bool
  | .int _ => true
  | .bool _ => true
  | _ => false

/-- Python `isinstance(v, (int, float))`; booleans pass via the `int` arm. -/
def PyVal.isNumber : PyVal → Bool
  | .int _ => true
  | .bool _ => true
  | .float _ => true
  | _ => false

/-- Python `isinstance(v, bool)`. -/
def PyVal.isBool : PyVal → Bool
  | .bool _ => true
  | _ => false

/-! ## Association lists standing for Python dicts

Python dicts preserve insertion order; assignment to an existing key keeps the
key's position, assignment to a fresh key appends.
-/

/-- First-match lookup (Python `d.get(k)` / `k in d`). -/
def alistGet {β : Type} : List (String × β) → String → Option β
  | [], _ => Option.none
  | (a, b) :: rest, k => if a = k then some b else alistGet rest k

/-- Python `k in d` for a dict. -/
def alistContains {β : Type} (l : List (String × β)) (k : String) : Bool :=
  (alistGet l k).isSome

/-- Python dict assignment `d[k] = v`: replace in place, or append. -/
def alistInsert {β : Type} (l : List (String × β)) (k : String) (v : β) :
    List (String × β) :=
  if l.any (fun p => p.1 = k) then
    l.map (fun p => if p.1 = k then (k, v) else p)
  else
    l ++ [(k, v)]

/-- Python `del d[k]` (a no-op when the key is absent, matching the guarded
deletes in `clear_cache`). -/
def alistRemove {β : Type} (l : List (String × β)) (k : String) :
    List (String × β) :=
  l.filter (fun p => p.1 ≠ k)

/-! ## Substring predicate

Used to state that an error message names a parameter.  Defined over the
character lists of the strings so that list append lemmas apply.
-/

/-- The string `needle` occurs contiguously inside `hay`. -/
def containsStr (hay needle : String) : Prop :=
  ∃ pre post : List Char, hay.data = pre ++ needle.data ++ post

/-- Python `', '.join(l)`. -/
def joinSep (sep : String) : List String → String
  | [] => ""
  | [a] => a
  | a :: b :: rest => a ++ sep ++ joinSep sep (b :: rest)

/-- Boolean substring test (Python `needle in hay` for strings). -/
def containsStrB (hay needle : String) : Bool :=
  decide (needle.data <:+: hay.data)

/-! ## Python operations that can raise

`pyIn` is the membership operator `key in v`, `pyGetM` is `v.get(key, dflt)`
(an `AttributeError` on non-dicts), `pyIndexKey` is `v[key]` with a string
key, and `pyIterate` is `for x in v`.  Errors carry a rendering of the Python
exception; the embedded callers only ever catch them wholesale.
-/

def pyIn (key : String) : PyVal → Except String Bool
  | .dict d => Except.ok (alistContains d key)
  | .list l =>
      Except.ok (l.any (fun e =>
        match e with
        | .str s => s = key
        | _ => false))
  | .str s => Except.ok (containsStrB s key)
  | v => Except.error ("argument of type '" ++ v.typeName ++ "' is not iterable")

def pyGetM (v : PyVal) (key : String) (dflt : PyVal) : Except String PyVal :=
  match v with
  | .dict d => Except.ok ((alistGet d key).getD dflt)
  | _ => Except.error ("'" ++ v.typeName ++ "' object has no attribute 'get'")

def pyIndexKey (v : PyVal) (key : String) : Except String PyVal :=
  match v with
  | .dict d =>
      match alistGet d key with
      | some x => Except.ok x
      | Option.none => Except.error ("KeyError: " ++ key)
  | v => Except.error (v.typeName ++ " indices must not be strings")

def pyIterate : PyVal → Except String (List PyVal)
  | .list l => Except.ok l
  | .str s => Except.ok (s.data.map (fun c => PyVal.str (String.mk [c])))
  | .dict d => Except.ok (d.map (fun p => PyVal.str p.1))
  | v => Except.error ("'" ++ v.typeName ++ "' object is not iterable")

/-- Truthiness of an `Optional` value (`if not response:`). -/
def optTruthy : Option PyVal → Bool
  | Option.none => false
  | some v => v.truthy

/-- Truthiness of `Optional[str]` fields (`if not config.host:`). -/
def optStrTruthy : Option String → Bool
  | Option.none => false
  | some s => s ≠ ""

/-- Truthiness of `Optional[int]` fields (`if not config.port:`). -/
def optIntTruthy : Option Int → Bool
  | Option.none => false
  | some n => n ≠ 0

/-! ## Configuration (`config.py`) -/

/-- Enum `ConnectionType` of `config.py`. -/
inductive ConnectionType where
  | stdio
  | socket
  | http
deriving DecidableEq

/-- The `value` string of a `ConnectionType` member. -/
def ConnectionType.valueStr : ConnectionType → String
  | .stdio => "stdio"
  | .socket => "socket"
  | .http => "http"

/-- Model `ServerConfig` of `config.py` (fields the embedded code reads). -/
structure ServerConfig where
  command : String
  args : List String := []
  env : List (String × String) := []
  cwd : Option String := Option.none
  type : ConnectionType := ConnectionType.stdio
  timeout : Int := 30000
  host : Option String := Option.none
  port : Option Int := Option.none
  socket_path : Option String := Option.none

/-- Method `MCPConfig.validate_server_configs`: per-server issue lists, with
only the offending servers present in the returned dict. -/
def validateServerConfigs (servers : List (String × ServerConfig)) :
    List (String × List String) :=
  servers.filterMap (fun nc =>
    let config := nc.2
    let server_issues :=
      (if config.type = ConnectionType.http then
        (if !optStrTruthy config.host then ["HTTP servers require 'host' field"] else [])
          ++ (if !optIntTruthy config.port then ["HTTP servers require 'port' field"] else [])
      else if config.type = ConnectionType.socket then
        (if !optStrTruthy config.socket_path then
          ["Socket servers require 'socket_path' field"] else [])
      else [])
      ++ (if !optStrTruthy (some config.command) then ["Command cannot be empty"] else [])
    if server_issues.isEmpty then Option.none else some (nc.1, server_issues))

/-! ## Connection state (`connection_manager.py`, `models.py`) -/

/-- Enum `ServerStatus` of `models.py`. -/
inductive ServerStatus where
  | disconnected
  | connecting
  | connected
  | error
  | timeout
deriving DecidableEq

/-- Mutable per-connection state of `MCPConnection`. -/
structure ConnState where
  status : ServerStatus := ServerStatus.disconnected
  last_error : Option String := Option.none
  error_count : Nat := 0

/-- Method `MCPConnection.mark_error`. -/
def markError (c : ConnState) (e : String) : ConnState :=
  { status := ServerStatus.error
    last_error := some e
    error_count := c.error_count + 1 }

/-- Method `MCPConnection.is_connected`. -/
def ConnState.is_connected (c : ConnState) : Bool :=
  decide (c.status = ServerStatus.connected)

/-- The connection implementation selected for a server. -/
inductive ConnKind where
  | stdioK
  | httpK
deriving DecidableEq

/-- Method `ConnectionManager.add_server`, restricted to the transport
dispatch: an unsupported `ConnectionType` raises
`ValueError(f"Unsupported connection type: {config.type}")`. -/
def addServerConnKind (config : ServerConfig) : Except String ConnKind :=
  if config.type = ConnectionType.stdio then Except.ok ConnKind.stdioK
  else if config.type = ConnectionType.http then Except.ok ConnKind.httpK
  else Except.error ("Unsupported connection type: " ++ config.type.valueStr)

/-- Registration loop of `MCPClient.initialize` (line `add_server(name, cfg)`
for every configured server); the first raised `ValueError` propagates. -/
def registerAll : List (String × ServerConfig) →
    Except String (List (String × ConnKind))
  | [] => Except.ok []
  | (n, c) :: rest => do
      let k ← addServerConnKind c
      let r ← registerAll rest
      Except.ok ((n, k) :: r)

/-- Method `MCPClient.initialize`: validate the configuration (returning
`false` when issues are reported) and then register every server, letting a
registration error propagate to the caller. -/
def clientInitialize (servers : List (String × ServerConfig)) :
    Except String Bool :=
  if !(validateServerConfigs servers).isEmpty then Except.ok false
  else do
    let _ ← registerAll servers
    Except.ok true

/-! ## Connecting (`StdioConnection.connect`, `HTTPConnection.connect`,
`ConnectionManager.connect_all`)

The transport-level outcome of one `connect()` attempt is an oracle value:
for stdio, spawn failure / missing pipes / the handshake response line; for
HTTP, a raised client exception / the `GET /health` status code.
-/

inductive ConnEvent where
  | stdioSpawnFail (msg : String)
  | stdioNoPipes
  | stdioHandshake (resp : Option PyVal)
  | httpExn (msg : String)
  | httpHealth (status : Nat)

/-- One `connect()` attempt (`StdioConnection.connect` or
`HTTPConnection.connect`, as selected by the event), returning the new
connection state and the boolean result.  The transient `CONNECTING` status is
overwritten before the method returns and is not observable here. -/
def runConnect (c : ConnState) (ev : ConnEvent) : ConnState × Bool :=
  match ev with
  | ConnEvent.stdioSpawnFail m =>
      (markError c ("Connection failed: " ++ m), false)
  | ConnEvent.stdioNoPipes =>
      (markError c "Failed to get process pipes", false)
  | ConnEvent.stdioHandshake r =>
      match r with
      | Option.none => (markError c "Failed to initialize connection", false)
      | some v =>
          if !v.truthy then (markError c "Failed to initialize connection", false)
          else
            match pyIn "result" v with
            | Except.error m => (markError c ("Connection failed: " ++ m), false)
            | Except.ok true => ({ c with status := ServerStatus.connected }, true)
            | Except.ok false => (markError c "Failed to initialize connection", false)
  | ConnEvent.httpExn m =>
      (markError c ("HTTP connection failed: " ++ m), false)
  | ConnEvent.httpHealth status =>
      if status = 200 then ({ c with status := ServerStatus.connected }, true)
      else (markError c ("Health check failed: " ++ toString status), false)

/-- Method `ConnectionManager.connect_all`: connect every registered server
(each attempt described by the per-server event oracle) and pair the updated
connection map with the name-to-bool result map.  `_connect_server` catches
every exception of `connect()`, so each slot always yields a boolean. -/
def connectAll (conns : List (String × ConnState)) (evs : String → ConnEvent) :
    List (String × ConnState) × List (String × Bool) :=
  let stepped := conns.map (fun nc => (nc.1, runConnect nc.2 (evs nc.1)))
  (stepped.map (fun np => (np.1, np.2.1)), stepped.map (fun np => (np.1, np.2.2)))

/-- Method `ConnectionManager.get_connected_servers`. -/
def getConnectedServers (conns : List (String × ConnState)) : List String :=
  (conns.filter (fun p => p.2.is_connected)).map (fun p => p.1)

/-- Method `MCPClient.connect`: a `RuntimeError` is raised before any work
when the client is not initialized; otherwise the connect fan-out runs.  (The
follow-up tool-discovery fan-out performed on success is modelled separately
by `discoverServerTools` and is irrelevant to the guard.) -/
def clientConnect (initialized : Bool) (conns : List (String × ConnState))
    (evs : String → ConnEvent) :
    Except String (List (String × ConnState) × List (String × Bool)) :=
  if !initialized then
    Except.error "Client not initialized. Call initialize() first."
  else Except.ok (connectAll conns evs)

/-! ## HTTP transport send (`HTTPConnection.send_message`) -/

/-- Fields of an `MCPMessage` read by `HTTPConnection.send_message`. -/
structure MCPMessageM where
  method : Option String := Option.none
  params : Option PyVal := Option.none

/-- Outcome of the one HTTP call `send_message` performs. -/
inductive HttpSendEvent where
  | exn (msg : String)
  | response (status : Nat) (body : PyVal)

/-- Payload construction for `tools/call`
(`{"tool_id": message.params["name"], "inputs": message.params["arguments"]}`);
subscripting `None` or a dict missing a key raises. -/
def callPayload (params : Option PyVal) : Except String (PyVal × PyVal) := do
  match params with
  | Option.none => Except.error "'NoneType' object is not subscriptable"
  | some p => do
      let tool_id ← pyIndexKey p "name"
      let inputs ← pyIndexKey p "arguments"
      Except.ok (tool_id, inputs)

/-- Method `HTTPConnection.send_message`.  Note that a non-200 HTTP status
falls through to `return None` without touching the connection state; only a
raised exception runs `mark_error`. -/
def httpSendMessage (c : ConnState) (hasSession : Bool) (msg : MCPMessageM)
    (ev : HttpSendEvent) : ConnState × Option PyVal :=
  if !hasSession then (c, Option.none)
  else if msg.method = some "tools/list" then
    match ev with
    | HttpSendEvent.exn m => (markError c ("HTTP message failed: " ++ m), Option.none)
    | HttpSendEvent.response status body =>
        if status = 200 then (c, some body) else (c, Option.none)
  else if msg.method = some "tools/call" then
    match callPayload msg.params with
    | Except.error m => (markError c ("HTTP message failed: " ++ m), Option.none)
    | Except.ok _ =>
        match ev with
        | HttpSendEvent.exn m => (markError c ("HTTP message failed: " ++ m), Option.none)
        | HttpSendEvent.response status body =>
            if status = 200 then (c, some body) else (c, Option.none)
  else (c, Option.none)

/-! ## Tool data model (`models.py`) -/

/-- Model `ToolParameter` of `models.py`. -/
structure ToolParameter where
  name : String
  type : String
  description : Option String := Option.none
  required : Bool := false
  default : Option PyVal := Option.none
  param_schema : Option PyVal := Option.none

/-- Model `Tool` of `models.py`. -/
structure Tool where
  name : String
  description : Option String := Option.none
  parameters : List ToolParameter := []
  input_schema : Option PyVal := Option.none
  server_name : Option String := Option.none

/-- The validation-error dict built by `Tool.validate_parameters`; a key is
present in the Python dict exactly when the corresponding list is
non-empty. -/
structure ValidationErrors where
  missing : List String
  type_errors : List String

/-- Truthiness of the validation-error dict (`if validation_errors:`). -/
def ValidationErrors.hasErrors (e : ValidationErrors) : Bool :=
  !(e.missing.isEmpty && e.type_errors.isEmpty)

/-- One step of the `elif` chain in `Tool.validate_parameters` checking a
present value against the parameter's declared primitive type. -/
def paramTypeError (param : ToolParameter) (value : PyVal) : Option String :=
  if param.type = "string" && !value.isStr then
    some (param.name ++ ": expected string, got " ++ value.typeName)
  else if param.type = "integer" && !value.isInt then
    some (param.name ++ ": expected integer, got " ++ value.typeName)
  else if param.type = "number" && !value.isNumber then
    some (param.name ++ ": expected number, got " ++ value.typeName)
  else if param.type = "boolean" && !value.isBool then
    some (param.name ++ ": expected boolean, got " ++ value.typeName)
  else Option.none

/-- Method `Tool.validate_parameters`. -/
def Tool.validate_parameters (t : Tool) (inputs : List (String × PyVal)) :
    ValidationErrors :=
  let required_params := (t.parameters.filter (fun p => p.required)).map (fun p => p.name)
  let missing_params := required_params.filter (fun p => !alistContains inputs p)
  let type_errors := t.parameters.filterMap (fun param =>
    match alistGet inputs param.name with
    | Option.none => Option.none
    | some value => paramTypeError param value)
  ⟨missing_params, type_errors⟩

/-- Method `ToolExecutor._format_validation_errors`. -/
def formatValidationErrors (errors : ValidationErrors) : String :=
  let m1 := if errors.missing.isEmpty then []
    else ["Missing required parameters: " ++ joinSep ", " errors.missing]
  let m2 := if errors.type_errors.isEmpty then []
    else ["Type errors: " ++ joinSep "; " errors.type_errors]
  joinSep "; " (m1 ++ m2)

/-! ## Tool discovery (`tool_discovery.py`)

The cache stores each tool's `.dict()` serialization and rebuilds
`Tool(**data)` on read; on this model that round trip is the identity, so the
cache holds `Tool` values directly.  `time.time()` is the explicit `now`
argument.
-/

/-- State owned by a `ToolDiscovery` instance. -/
structure DiscoveryState where
  cache_ttl : Int := 300
  tool_cache : List (String × List Tool) := []
  cache_timestamps : List (String × Int) := []

/-- Method `ToolDiscovery._is_cache_valid`. -/
def isCacheValid (d : DiscoveryState) (now : Int) (server_name : String) : Bool :=
  match alistGet d.cache_timestamps server_name with
  | Option.none => false
  | some ts => decide (now - ts < d.cache_ttl)

/-- Method `ToolDiscovery._update_cache`. -/
def updateCache (d : DiscoveryState) (server_name : String) (tools : List Tool)
    (now : Int) : DiscoveryState :=
  { d with
    tool_cache := alistInsert d.tool_cache server_name tools
    cache_timestamps := alistInsert d.cache_timestamps server_name now }

/-- Method `ToolDiscovery.clear_cache`. -/
def clearCache (d : DiscoveryState) (server_name : Option String) : DiscoveryState :=
  match server_name with
  | some s =>
      { d with
        tool_cache := alistRemove d.tool_cache s
        cache_timestamps := alistRemove d.cache_timestamps s }
  | Option.none => { d with tool_cache := [], cache_timestamps := [] }

/-- Method `ToolDiscovery.get_cached_tools`. -/
def getCachedTools (d : DiscoveryState) (now : Int) (server_name : String) :
    List Tool :=
  if isCacheValid d now server_name then (alistGet d.tool_cache server_name).getD []
  else []

/-- Method `ToolDiscovery.get_all_cached_tools`. -/
def getAllCachedTools (d : DiscoveryState) (now : Int) :
    List (String × List Tool) :=
  d.tool_cache.filterMap (fun p =>
    if isCacheValid d now p.1 then some (p.1, getCachedTools d now p.1)
    else Option.none)

/-- The first-match scan over all servers used by `find_tool` when no server
is given. -/
def findInServers (tool_name : String) : List (String × List Tool) → Option Tool
  | [] => Option.none
  | (_, ts) :: rest =>
      match ts.find? (fun t => t.name == tool_name) with
      | some t => some t
      | Option.none => findInServers tool_name rest

/-- Method `ToolDiscovery.find_tool`. -/
def findTool (d : DiscoveryState) (now : Int) (tool_name : String)
    (server_name : Option String) : Option Tool :=
  match server_name with
  | some s => (getCachedTools d now s).find? (fun t => t.name == tool_name)
  | Option.none => findInServers tool_name (getAllCachedTools d now)

/-- Lenient string coercion of pydantic v1 `str` fields, used when rebuilding
descriptor fields. -/
def coerceStr : PyVal → Option String
  | PyVal.str s => some s
  | PyVal.int n => some (toString n)
  | PyVal.float q => some (toString q)
  | PyVal.bool b => some (if b then "True" else "False")
  | _ => Option.none

/-- Optional-string field coercion (`Optional[str]`). -/
def coerceOptStr : PyVal → Option (Option String)
  | PyVal.pyNone => some Option.none
  | v => (coerceStr v).map some

/-- Parameter-list construction inside `_parse_tool_data`: iterate
`input_schema['properties'].items()`, building one `ToolParameter` per entry;
any raised exception (non-dict property schema, unusable membership test on
`required`, pydantic rejection) aborts the whole parse. -/
def parseParams (required_fields : PyVal) :
    List (String × PyVal) → Except String (List ToolParameter)
  | [] => Except.ok []
  | (param_name, param_schema) :: rest => do
      match param_schema with
      | PyVal.dict ps => do
          let tyRaw := (alistGet ps "type").getD (PyVal.str "string")
          let ty ←
            match coerceStr tyRaw with
            | some s => Except.ok s
            | Option.none => Except.error "validation error for ToolParameter type"
          let desc ←
            match coerceOptStr ((alistGet ps "description").getD PyVal.pyNone) with
            | some o => Except.ok o
            | Option.none => Except.error "validation error for ToolParameter description"
          let req ← pyIn param_name required_fields
          let tail ← parseParams required_fields rest
          Except.ok
            ({ name := param_name, type := ty, description := desc,
               required := req, param_schema := some (PyVal.dict ps) } :: tail)
      | v => Except.error ("'" ++ v.typeName ++ "' object has no attribute 'get'")

/-- Body of `ToolDiscovery._parse_tool_data` before the final `Tool`
construction; a raised exception collapses to `none` via the method's own
`except` clause. -/
def parseToolCore (tool_data : PyVal) :
    Option (String × Option String × PyVal × List ToolParameter) :=
  match tool_data with
  | PyVal.dict td =>
      let nameRaw := (alistGet td "name").getD PyVal.pyNone
      if !nameRaw.truthy then Option.none
      else
        match coerceStr nameRaw with
        | Option.none => Option.none
        | some name =>
            let descRaw := (alistGet td "description").getD (PyVal.str "")
            match coerceOptStr descRaw with
            | Option.none => Option.none
            | some description =>
                let input_schema := (alistGet td "inputSchema").getD (PyVal.dict [])
                match pyIn "properties" input_schema with
                | Except.error _ => Option.none
                | Except.ok hasProps =>
                    if hasProps then
                      match pyIndexKey input_schema "properties" with
                      | Except.error _ => Option.none
                      | Except.ok props =>
                          match props with
                          | PyVal.dict propsD =>
                              let required_fields :=
                                match pyGetM input_schema "required" (PyVal.list []) with
                                | Except.ok v => some v
                                | Except.error _ => Option.none
                              match required_fields with
                              | Option.none => Option.none
                              | some rf =>
                                  match parseParams rf propsD with
                                  | Except.error _ => Option.none
                                  | Except.ok ps =>
                                      some (name, description, input_schema, ps)
                          | _ => Option.none
                    else some (name, description, input_schema, [])
  | _ => Option.none

/-- Method `ToolDiscovery._parse_tool_data`: every successfully parsed tool
carries the `server_name` it is being discovered for. -/
def parseToolData (tool_data : PyVal) (server_name : String) : Option Tool :=
  match parseToolCore tool_data with
  | some (name, description, input_schema, ps) =>
      some { name := name, description := description, parameters := ps,
             input_schema := some input_schema, server_name := some server_name }
  | Option.none => Option.none

/-- Response handling of `discover_server_tools` after `send_message`
returns: `none` marks the invalid-response early return (no cache update),
`some tools` the parsed list; a raised exception is reported as
`Except.error` and handled identically to the invalid case by the caller. -/
def discoverParse (resp : Option PyVal) (server_name : String) :
    Except String (Option (List Tool)) :=
  match resp with
  | Option.none => Except.ok Option.none
  | some v =>
      if !v.truthy then Except.ok Option.none
      else
        match pyIn "result" v with
        | Except.error m => Except.error m
        | Except.ok false => Except.ok Option.none
        | Except.ok true =>
            match pyIndexKey v "result" with
            | Except.error m => Except.error m
            | Except.ok res =>
                match pyGetM res "tools" (PyVal.list []) with
                | Except.error m => Except.error m
                | Except.ok tools_data =>
                    match pyIterate tools_data with
                    | Except.error m => Except.error m
                    | Except.ok items =>
                        Except.ok (some (items.filterMap
                          (fun td => parseToolData td server_name)))

/-- Result of one `discover_server_tools` call: the returned tool list, the
updated discovery state, and how many `tools/list` requests reached the
transport. -/
structure DiscoverOut where
  tools : List Tool
  state : DiscoveryState
  sends : Nat

/-- Method `ToolDiscovery.discover_server_tools`.  The `oracle` is the
outcome of the (at most one) `send_message` call: `Except.error` when the
transport raised, otherwise the optional decoded response. -/
def discoverServerTools (d : DiscoveryState) (now : Int)
    (conns : List (String × ConnState)) (oracle : Except String (Option PyVal))
    (server_name : String) (force_refresh : Bool) : DiscoverOut :=
  if !force_refresh && isCacheValid d now server_name then
    ⟨(alistGet d.tool_cache server_name).getD [], d, 0⟩
  else
    match alistGet conns server_name with
    | Option.none => ⟨[], d, 0⟩
    | some c =>
        if !c.is_connected then ⟨[], d, 0⟩
        else
          match oracle with
          | Except.error _ => ⟨[], d, 1⟩
          | Except.ok resp =>
              match discoverParse resp server_name with
              | Except.error _ => ⟨[], d, 1⟩
              | Except.ok Option.none => ⟨[], d, 1⟩
              | Except.ok (some tools) =>
                  ⟨tools, updateCache d server_name tools now, 1⟩

/-! ## Discovery-state operation traces (for the cache invariant) -/

/-- One mutating `ToolDiscovery` operation: a discovery (also covering
`refresh_tools`, which is discovery with `force_refresh=True`) or a cache
clear.  Read-only methods do not alter the state and need no constructor. -/
inductive DiscOp where
  | discover (now : Int) (conns : List (String × ConnState))
      (oracle : Except String (Option PyVal)) (server_name : String) (force : Bool)
  | clear (server_name : Option String)

/-- Apply one operation to the discovery state. -/
def runDiscOp (d : DiscoveryState) : DiscOp → DiscoveryState
  | DiscOp.discover now conns oracle s force =>
      (discoverServerTools d now conns oracle s force).state
  | DiscOp.clear s => clearCache d s

/-- Apply a trace of operations from a starting state. -/
def runDiscOps (d : DiscoveryState) : List DiscOp → DiscoveryState
  | [] => d
  | op :: rest => runDiscOps (runDiscOp d op) rest

/-- Invariant of claim C9: every cached tool names the cache key as its
owning server. -/
def CacheInv (d : DiscoveryState) : Prop :=
  ∀ p ∈ d.tool_cache, ∀ t ∈ p.2, t.server_name = some p.1

/-! ## Tool execution (`tool_executor.py`, `models.py`) -/

/-- Model `ToolInvocation` of `models.py`.  The optional per-call timeout
only selects the numeric bound of `asyncio.wait_for` and does not influence
any value computed here. -/
structure ToolInvocation where
  tool_name : String
  server_name : String
  parameters : List (String × PyVal) := []
  timeout : Option Int := Option.none

/-- Model `ToolResult` of `models.py`; the wall-clock `execution_time` and
`timestamp` fields are real-time measurements and are not carried. -/
structure ToolResult where
  success : Bool
  result : Option PyVal := Option.none
  error : Option String := Option.none
  server_name : Option String := Option.none
  tool_name : Option String := Option.none

/-- Outcome of the one `send_message` call of `execute_tool`, as bounded by
`asyncio.wait_for`: the timeout fired, the transport raised, or a response
(possibly `None`) came back. -/
inductive SendOutcome where
  | timeout
  | raised (msg : String)
  | resp (r : Option PyVal)

/-- Response interpretation of `execute_tool` (its lines that inspect a
truthy response): the protocol-error branch and the success-payload
extraction, with Python attribute/key/type errors surfacing as
`Except.error` (they are caught by the method's outer `except` clause). -/
def interpretSuccess (v : PyVal) : Except String ToolResult :=
  match pyIn "error" v with
  | Except.error m => Except.error m
  | Except.ok true =>
      match pyIndexKey v "error" with
      | Except.error m => Except.error m
      | Except.ok errObj =>
          match pyGetM errObj "message" (PyVal.str "Unknown error") with
          | Except.error m => Except.error m
          | Except.ok msg =>
              Except.ok { success := false,
                          error := some ("Server error: " ++ msg.pyStr) }
  | Except.ok false =>
      match pyGetM v "result" (PyVal.dict []) with
      | Except.error m => Except.error m
      | Except.ok tool_result =>
          match pyIn "content" tool_result with
          | Except.error m => Except.error m
          | Except.ok true =>
              match pyIndexKey tool_result "content" with
              | Except.error m => Except.error m
              | Except.ok content =>
                  match content with
                  | PyVal.list (x :: _) =>
                      match pyGetM x "text" x with
                      | Except.error m => Except.error m
                      | Except.ok result_data =>
                          Except.ok { success := true, result := some result_data }
                  | _ => Except.ok { success := true, result := some content }
          | Except.ok false =>
              Except.ok { success := true, result := some tool_result }

/-- Method `ToolExecutor.execute_tool`.  Returns the `ToolResult` paired with
whether the invocation reached the transport (`send_message` was called).
`elapsed` is the rendered `time.time() - start_time` used only inside the
timeout message. -/
def executeTool (d : DiscoveryState) (now : Int)
    (conns : List (String × ConnState)) (outcome : SendOutcome)
    (elapsed : String) (inv : ToolInvocation) : ToolResult × Bool :=
  let fail : String → ToolResult := fun e =>
    { success := false, error := some e,
      server_name := some inv.server_name, tool_name := some inv.tool_name }
  match findTool d now inv.tool_name (some inv.server_name) with
  | Option.none =>
      (fail ("Tool '" ++ inv.tool_name ++ "' not found on server '" ++
        inv.server_name ++ "'"), false)
  | some tool =>
      let validation_errors := tool.validate_parameters inv.parameters
      if validation_errors.hasErrors then
        (fail ("Parameter validation failed: " ++
          formatValidationErrors validation_errors), false)
      else
        match alistGet conns inv.server_name with
        | Option.none =>
            (fail ("Server '" ++ inv.server_name ++ "' is not connected"), false)
        | some connection =>
            if !connection.is_connected then
              (fail ("Server '" ++ inv.server_name ++ "' is not connected"), false)
            else
              match outcome with
              | SendOutcome.timeout =>
                  (fail ("Tool execution timed out after " ++ elapsed ++ "s"), true)
              | SendOutcome.raised m =>
                  (fail ("Execution failed: " ++ m), true)
              | SendOutcome.resp r =>
                  match r with
                  | Option.none => (fail "No response from server", true)
                  | some v =>
                      if !v.truthy then (fail "No response from server", true)
                      else
                        match interpretSuccess v with
                        | Except.error m => (fail ("Execution failed: " ++ m), true)
                        | Except.ok res =>
                            ({ res with
                                server_name := some inv.server_name,
                                tool_name := some inv.tool_name }, true)

/-- One slot of `batch_execute`: run the invocation's task; a raised
exception (surfacing through `asyncio.gather(..., return_exceptions=True)`)
is converted to a failed `ToolResult` carrying the exception text. -/
def runSlot (exec : ToolInvocation → Except String ToolResult)
    (invocation : ToolInvocation) : ToolResult :=
  match exec invocation with
  | Except.ok r => r
  | Except.error m =>
      { success := false, error := some ("Execution exception: " ++ m),
        server_name := some invocation.server_name,
        tool_name := some invocation.tool_name }

/-- Method `ToolExecutor.batch_execute`: one task per invocation, results
collected in input order. -/
def batchExecute (exec : ToolInvocation → Except String ToolResult)
    (invocations : List ToolInvocation) : List ToolResult :=
  invocations.map (runSlot exec)

/-! ## Concrete fixtures used by witnesses and counterexamples -/

/-- A required string parameter. -/
def paramWho : ToolParameter := { name := "who", type := "string", required := true }

/-- A required integer parameter. -/
def paramCount : ToolParameter := { name := "count", type := "integer", required := true }

/-- A tool with one required parameter. -/
def toolGreet : Tool :=
  { name := "greet", parameters := [paramWho], server_name := some "srv" }

/-- A parameterless tool. -/
def toolPing : Tool :=
  { name := "ping", parameters := [], server_name := some "srv" }

/-- A tool with one required integer parameter. -/
def toolRepeat : Tool :=
  { name := "rep", parameters := [paramCount], server_name := some "srv" }

/-- A discovery state with a fresh cache entry for server `srv`. -/
def discFix : DiscoveryState :=
  { cache_ttl := 300,
    tool_cache := [("srv", [toolGreet, toolPing, toolRepeat])],
    cache_timestamps := [("srv", 0)] }

/-- A connection map with `srv` connected. -/
def connsFix : List (String × ConnState) :=
  [("srv", { status := ServerStatus.connected })]

/-- An invocation of `greet` that omits the required parameter. -/
def invGreetNoArgs : ToolInvocation := { tool_name := "greet", server_name := "srv" }

/-- An invocation of the parameterless `ping`. -/
def invPing : ToolInvocation := { tool_name := "ping", server_name := "srv" }

/-- An invocation of `rep` passing a boolean where an integer is declared. -/
def invRepeatBool : ToolInvocation :=
  { tool_name := "rep", server_name := "srv",
    parameters := [("count", PyVal.bool true)] }

/-! ## Substring helper lemmas -/

theorem containsStr_self (s : String) : containsStr s s :=
  ⟨[], [], by simp⟩

theorem containsStr_append_left (a : String) {hay n : String}
    (h : containsStr hay n) : containsStr (a ++ hay) n := by
  obtain ⟨p, q, hpq⟩ := h
  exact ⟨a.data ++ p, q, by simp [hpq]⟩

theorem containsStr_append_right (b : String) {hay n : String}
    (h : containsStr hay n) : containsStr (hay ++ b) n := by
  obtain ⟨p, q, hpq⟩ := h
  exact ⟨p, q ++ b.data, by simp [hpq]⟩

theorem mem_joinSep (sep : String) (l : List String) (x : String) (hx : x ∈ l) :
    containsStr (joinSep sep l) x := by
  induction l with
  | nil => cases hx
  | cons a t ih =>
    cases t with
    | nil =>
      rcases List.mem_singleton.mp hx with rfl
      exact containsStr_self x
    | cons b rest =>
      rcases List.mem_cons.mp hx with rfl | hmem
      · exact containsStr_append_right _ (containsStr_append_right _ (containsStr_self x))
      · exact containsStr_append_left _ (ih hmem)

theorem containsStr_joinSep_head (sep a x : String) (t : List String)
    (h : containsStr a x) : containsStr (joinSep sep (a :: t)) x := by
  cases t with
  | nil => exact h
  | cons b rest =>
    exact containsStr_append_right _ (containsStr_append_right _ h)

/-! ## Validation lemmas -/

theorem mem_missing_of_required_absent (t : Tool) (inputs : List (String × PyVal))
    (p : ToolParameter) (hp : p ∈ t.parameters) (hreq : p.required = true)
    (habs : alistGet inputs p.name = Option.none) :
    p.name ∈ (t.validate_parameters inputs).missing := by
  simp only [Tool.validate_parameters]
  refine List.mem_filter.mpr ⟨List.mem_map.mpr ⟨p, List.mem_filter.mpr ⟨hp, hreq⟩, rfl⟩, ?_⟩
  simp [alistContains, habs]

theorem hasErrors_of_mem_missing (e : ValidationErrors) (x : String)
    (hx : x ∈ e.missing) : e.hasErrors = true := by
  have : e.missing ≠ [] := List.ne_nil_of_mem hx
  simp [ValidationErrors.hasErrors, List.isEmpty_iff, this]

theorem formatValidationErrors_names_missing (e : ValidationErrors) (x : String)
    (hx : x ∈ e.missing) : containsStr (formatValidationErrors e) x := by
  have hne : e.missing.isEmpty = false := by
    simp [List.isEmpty_iff, List.ne_nil_of_mem hx]
  simp only [formatValidationErrors, hne, Bool.false_eq_true, if_false]
  exact containsStr_joinSep_head _ _ _ _
    (containsStr_append_left _ (mem_joinSep _ _ _ hx))

/-- C1: `execute_tool` on an invocation whose argument map omits a parameter
that the resolved tool declares required returns a failed `ToolResult` whose
error message names the missing parameter, and the transport is never
reached. -/
theorem executeTool_missing_param_no_send (d : DiscoveryState) (now : Int)
    (conns : List (String × ConnState)) (outcome : SendOutcome) (elapsed : String)
    (inv : ToolInvocation) (tool : Tool) (p : ToolParameter)
    (hfind : findTool d now inv.tool_name (some inv.server_name) = some tool)
    (hp : p ∈ tool.parameters) (hreq : p.required = true)
    (habs : alistGet inv.parameters p.name = Option.none) :
    (executeTool d now conns outcome elapsed inv).1.success = false ∧
    (executeTool d now conns outcome elapsed inv).2 = false ∧
    ∃ e, (executeTool d now conns outcome elapsed inv).1.error = some e ∧
      containsStr e p.name := by
  have hmiss := mem_missing_of_required_absent tool inv.parameters p hp hreq habs
  have herr := hasErrors_of_mem_missing _ _ hmiss
  simp only [executeTool, hfind, herr, if_true]
  refine ⟨trivial, trivial, _, rfl, ?_⟩
  exact containsStr_append_left _ (formatValidationErrors_names_missing _ _ hmiss)

/-- C1 witness: invoking `greet` without its required `who` argument. -/
theorem executeTool_missing_param_no_send_witness :
    (executeTool discFix 10 connsFix (SendOutcome.resp Option.none) "0.00"
      invGreetNoArgs).1.success = false ∧
    (executeTool discFix 10 connsFix (SendOutcome.resp Option.none) "0.00"
      invGreetNoArgs).2 = false ∧
    ∃ e, (executeTool discFix 10 connsFix (SendOutcome.resp Option.none) "0.00"
      invGreetNoArgs).1.error = some e ∧ containsStr e paramWho.name :=
  executeTool_missing_param_no_send discFix 10 connsFix
    (SendOutcome.resp Option.none) "0.00" invGreetNoArgs toolGreet paramWho
    (by rfl) (by simp [toolGreet]) rfl rfl

/-! ## Batch execution (C2) -/

theorem listGetMid {α : Type} (l : List α) (a : α) (r : List α) :
    (l ++ a :: r)[l.length]? = some a := by
  induction l with
  | nil => simp
  | cons x t ih => simpa using ih

theorem listGetAfter {α : Type} (l : List α) (a : α) (r : List α) (j : Nat) :
    (l ++ a :: r)[l.length + (j + 1)]? = r[j]? := by
  induction l with
  | nil => simp
  | cons x t ih => simpa [Nat.succ_add] using ih

theorem batchExecute_get (exec : ToolInvocation → Except String ToolResult)
    (l : List ToolInvocation) (j : Nat) :
    (batchExecute exec l)[j]? = (l[j]?).map (runSlot exec) := by
  simp [batchExecute]

/-- C2: `batch_execute` returns exactly one `ToolResult` per invocation, in
input order; a slot whose task raises becomes a failed `ToolResult` carrying
the exception message, and every other slot's result is exactly what running
its own invocation alone produces. -/
theorem batchExecute_slots (exec : ToolInvocation → Except String ToolResult)
    (pre post : List ToolInvocation) (inv : ToolInvocation) (m : String)
    (hexn : exec inv = Except.error m) :
    (batchExecute exec (pre ++ inv :: post)).length = pre.length + 1 + post.length ∧
    (batchExecute exec (pre ++ inv :: post))[pre.length]? =
      some { success := false, error := some ("Execution exception: " ++ m),
             server_name := some inv.server_name,
             tool_name := some inv.tool_name } ∧
    (∀ j, j < pre.length →
      (batchExecute exec (pre ++ inv :: post))[j]? = (pre[j]?).map (runSlot exec)) ∧
    (∀ j, (batchExecute exec (pre ++ inv :: post))[pre.length + (j + 1)]? =
      (post[j]?).map (runSlot exec)) := by
  refine ⟨?_, ?_, ?_, ?_⟩
  · simp [batchExecute]
    omega
  · rw [batchExecute_get, listGetMid]
    simp [runSlot, hexn]
  · intro j hj
    rw [batchExecute_get, List.getElem?_append_left hj]
  · intro j
    rw [batchExecute_get, listGetAfter]

/-- The broken-task executor used by the C2 witness: the `boom` invocation
raises, everything else succeeds. -/
def execFix : ToolInvocation → Except String ToolResult := fun inv =>
  if inv.tool_name = "boom" then Except.error "task blew up"
  else Except.ok { success := true }

/-- The invocation engineered to raise in the C2 witness. -/
def invBoom : ToolInvocation := { tool_name := "boom", server_name := "s" }

/-- C2 witness: one broken invocation between two healthy ones. -/
theorem batchExecute_slots_witness :
    (batchExecute execFix ([invPing] ++ invBoom :: [invGreetNoArgs])).length = 3 ∧
    (batchExecute execFix ([invPing] ++ invBoom :: [invGreetNoArgs]))[1]? =
      some { success := false, error := some ("Execution exception: " ++ "task blew up"),
             server_name := some invBoom.server_name,
             tool_name := some invBoom.tool_name } ∧
    (batchExecute execFix ([invPing] ++ invBoom :: [invGreetNoArgs]))[0]? =
      some (runSlot execFix invPing) ∧
    (batchExecute execFix ([invPing] ++ invBoom :: [invGreetNoArgs]))[1 + (0 + 1)]? =
      some (runSlot execFix invGreetNoArgs) := by
  have h := batchExecute_slots execFix [invPing] [invGreetNoArgs] invBoom
    "task blew up" (by rfl)
  exact ⟨h.1, h.2.1, by simpa using h.2.2.1 0 (by decide), by simpa using h.2.2.2 0⟩

/-! ## Discovery caching (C3) -/

/-- A connection map with `srv` registered but disconnected. -/
def connsDisc : List (String × ConnState) :=
  [("srv", { status := ServerStatus.disconnected })]

/-- C3 counterexample: with `force_refresh=True`, a fresh (younger than the
TTL) cache entry, and the target server registered but not connected,
`discover_server_tools` returns without issuing any `tools/list` request —
refuting the claim that `force_refresh=true` always issues a fresh request
regardless of the cache entry's age. -/
theorem discoverServerTools_force_no_send_counterexample :
    isCacheValid discFix 10 "srv" = true ∧
    (discoverServerTools discFix 10 connsDisc (Except.ok Option.none) "srv" true).sends
      = 0 := by
  exact ⟨rfl, rfl⟩

/-- C3 (amended): with `force_refresh=False` and a valid cache entry the
cached tool list is returned with no `tools/list` request and no state
change; with `force_refresh=True` and a registered, connected target server a
`tools/list` request is always issued, regardless of the cache entry's
age. -/
theorem discoverServerTools_cache_spec (d : DiscoveryState) (now : Int)
    (conns : List (String × ConnState)) (oracle : Except String (Option PyVal))
    (s : String) :
    (isCacheValid d now s = true →
      discoverServerTools d now conns oracle s false =
        ⟨(alistGet d.tool_cache s).getD [], d, 0⟩) ∧
    (∀ c : ConnState, alistGet conns s = some c →
      c.status = ServerStatus.connected →
      (discoverServerTools d now conns oracle s true).sends = 1) := by
  constructor
  · intro h
    simp [discoverServerTools, h]
  · intro c hc hst
    have hic : c.is_connected = true := by
      simp [ConnState.is_connected, hst]
    simp only [discoverServerTools, Bool.not_true, Bool.false_and, if_false, hc,
      hic, Bool.not_false]
    cases oracle with
    | error m => rfl
    | ok resp =>
        cases hdp : discoverParse resp s with
        | error m => simp [hdp]
        | ok o => cases o <;> simp [hdp]

/-- C3 witness: a fresh cache entry served without a send, and a forced
refresh on a connected server issuing one send. -/
theorem discoverServerTools_cache_spec_witness :
    (discoverServerTools discFix 10 connsFix (Except.ok Option.none) "srv" false =
      ⟨(alistGet discFix.tool_cache "srv").getD [], discFix, 0⟩) ∧
    (discoverServerTools discFix 10 connsFix (Except.ok Option.none) "srv" true).sends
      = 1 := by
  have h := discoverServerTools_cache_spec discFix 10 connsFix
    (Except.ok Option.none) "srv"
  exact ⟨h.1 rfl, h.2 { status := ServerStatus.connected } rfl rfl⟩

/-! ## Response interpretation (C4) -/

/-- Guard for the C4 scope: when the result object carries a non-empty
content array, its first element is an object (a non-object first element
makes the code raise into its generic `Execution failed` handler instead). -/
def contentHeadOk (rd : List (String × PyVal)) : Bool :=
  match alistGet rd "content" with
  | some (PyVal.list (PyVal.dict _ :: _)) => true
  | some (PyVal.list (_ :: _)) => false
  | _ => true

/-- Success payload as described by the amended claim C4 (spec-side
definition, to be compared with the embedded code): for a result object with
a `content` key holding a non-empty array, the first element's `text` field
(the element itself when it has no `text`); for a `content` key holding an
empty array or non-array, the content value itself; otherwise the result
object itself. -/
def specSuccessPayload (rd : List (String × PyVal)) : PyVal :=
  match alistGet rd "content" with
  | some (PyVal.list (x :: _)) =>
      match x with
      | PyVal.dict xd => (alistGet xd "text").getD (PyVal.dict xd)
      | _ => x
  | some v => v
  | Option.none => PyVal.dict rd

theorem interpretSuccess_protocol_error (dd e : List (String × PyVal)) (msg : String)
    (herr : alistGet dd "error" = some (PyVal.dict e))
    (hmsg : alistGet e "message" = some (PyVal.str msg)) :
    interpretSuccess (PyVal.dict dd) =
      Except.ok { success := false, error := some ("Server error: " ++ msg) } := by
  simp [interpretSuccess, pyIn, alistContains, herr, pyIndexKey, pyGetM, hmsg,
    PyVal.pyStr]

theorem interpretSuccess_payload (dd rd : List (String × PyVal))
    (herr : alistGet dd "error" = Option.none)
    (hres : (alistGet dd "result").getD (PyVal.dict []) = PyVal.dict rd)
    (hhead : contentHeadOk rd = true) :
    interpretSuccess (PyVal.dict dd) =
      Except.ok { success := true, result := some (specSuccessPayload rd) } := by
  cases hcont : alistGet rd "content" with
  | none =>
      simp [interpretSuccess, pyIn, alistContains, herr, pyGetM, hres, hcont,
        specSuccessPayload]
  | some content =>
      cases content with
      | list l =>
          cases l with
          | nil =>
              simp [interpretSuccess, pyIn, alistContains, herr, pyGetM, hres,
                hcont, pyIndexKey, specSuccessPayload]
          | cons x xs =>
              cases x with
              | dict xd =>
                  simp [interpretSuccess, pyIn, alistContains, herr, pyGetM,
                    hres, hcont, pyIndexKey, specSuccessPayload]
              | str s => simp [contentHeadOk, hcont] at hhead
              | int n => simp [contentHeadOk, hcont] at hhead
              | float q => simp [contentHeadOk, hcont] at hhead
              | bool b => simp [contentHeadOk, hcont] at hhead
              | list l2 => simp [contentHeadOk, hcont] at hhead
              | pyNone => simp [contentHeadOk, hcont] at hhead
      | str s =>
          simp [interpretSuccess, pyIn, alistContains, herr, pyGetM, hres,
            hcont, pyIndexKey, specSuccessPayload]
      | int n =>
          simp [interpretSuccess, pyIn, alistContains, herr, pyGetM, hres,
            hcont, pyIndexKey, specSuccessPayload]
      | float q =>
          simp [interpretSuccess, pyIn, alistContains, herr, pyGetM, hres,
            hcont, pyIndexKey, specSuccessPayload]
      | bool b =>
          simp [interpretSuccess, pyIn, alistContains, herr, pyGetM, hres,
            hcont, pyIndexKey, specSuccessPayload]
      | dict d2 =>
          simp [interpretSuccess, pyIn, alistContains, herr, pyGetM, hres,
            hcont, pyIndexKey, specSuccessPayload]
      | pyNone =>
          simp [interpretSuccess, pyIn, alistContains, herr, pyGetM, hres,
            hcont, pyIndexKey, specSuccessPayload]

theorem alistGet_ne_nil {β : Type} {l : List (String × β)} {k : String} {v : β}
    (h : alistGet l k = some v) : l ≠ [] := by
  intro hnil
  subst hnil
  simp [alistGet] at h

/-- C4 counterexample: a response whose result object maps `content` to an
empty array yields a successful `ToolResult` whose payload is that empty
array — not the result payload itself (and there is no first content element
whose text could be taken), refuting the claim as stated. -/
theorem executeTool_empty_content_counterexample :
    (executeTool discFix 10 connsFix
      (SendOutcome.resp (some (PyVal.dict
        [("result", PyVal.dict [("content", PyVal.list [])])]))) "0.00"
      invPing).1 =
      { success := true, result := some (PyVal.list []),
        server_name := some "srv", tool_name := some "ping" } ∧
    PyVal.list [] ≠ PyVal.dict [("content", PyVal.list [])] :=
  ⟨rfl, fun h => PyVal.noConfusion h⟩

/-- C4 (amended): once `execute_tool` reaches the transport, a `None` (or
falsy) response yields the failure `No response from server`; a response
object with an `error` object yields a failure carrying that object's
message; a truthy success response yields a successful `ToolResult` whose
payload follows `specSuccessPayload`: the first content element's `text`
(or the element itself without one) for a non-empty content array, the
content value itself for an empty/non-array `content`, else the result
object itself. -/
theorem executeTool_response_interpretation (d : DiscoveryState) (now : Int)
    (conns : List (String × ConnState)) (elapsed : String) (inv : ToolInvocation)
    (tool : Tool) (c : ConnState)
    (hfind : findTool d now inv.tool_name (some inv.server_name) = some tool)
    (hval : (tool.validate_parameters inv.parameters).hasErrors = false)
    (hconn : alistGet conns inv.server_name = some c)
    (hc : c.status = ServerStatus.connected) :
    (executeTool d now conns (SendOutcome.resp Option.none) elapsed inv).1 =
      { success := false, error := some "No response from server",
        server_name := some inv.server_name, tool_name := some inv.tool_name } ∧
    (∀ dd e msg, alistGet dd "error" = some (PyVal.dict e) →
      alistGet e "message" = some (PyVal.str msg) →
      (executeTool d now conns (SendOutcome.resp (some (PyVal.dict dd))) elapsed
        inv).1 =
        { success := false, error := some ("Server error: " ++ msg),
          server_name := some inv.server_name,
          tool_name := some inv.tool_name }) ∧
    (∀ dd rd, alistGet dd "error" = Option.none → dd ≠ [] →
      (alistGet dd "result").getD (PyVal.dict []) = PyVal.dict rd →
      contentHeadOk rd = true →
      (executeTool d now conns (SendOutcome.resp (some (PyVal.dict dd))) elapsed
        inv).1 =
        { success := true, result := some (specSuccessPayload rd),
          server_name := some inv.server_name,
          tool_name := some inv.tool_name }) := by
  have hic : c.is_connected = true := by simp [ConnState.is_connected, hc]
  refine ⟨?_, ?_, ?_⟩
  · simp [executeTool, hfind, hval, hconn, hic]
  · intro dd e msg herr hmsg
    have hne : dd ≠ [] := alistGet_ne_nil herr
    have htr : (PyVal.dict dd).truthy = true := by
      simp [PyVal.truthy, List.isEmpty_iff, hne]
    simp [executeTool, hfind, hval, hconn, hic, htr,
      interpretSuccess_protocol_error dd e msg herr hmsg]
  · intro dd rd herr hne hres hhead
    have htr : (PyVal.dict dd).truthy = true := by
      simp [PyVal.truthy, List.isEmpty_iff, hne]
    simp [executeTool, hfind, hval, hconn, hic, htr,
      interpretSuccess_payload dd rd herr hres hhead]

/-- C4 witness: the three branches exercised at concrete responses against
the parameterless `ping` tool. -/
theorem executeTool_response_interpretation_witness :
    (executeTool discFix 10 connsFix (SendOutcome.resp Option.none) "0.00"
      invPing).1 =
      { success := false, error := some "No response from server",
        server_name := some "srv", tool_name := some "ping" } ∧
    (executeTool discFix 10 connsFix
      (SendOutcome.resp (some (PyVal.dict
        [("error", PyVal.dict [("message", PyVal.str "boom")])]))) "0.00"
      invPing).1 =
      { success := false, error := some ("Server error: " ++ "boom"),
        server_name := some "srv", tool_name := some "ping" } ∧
    (executeTool discFix 10 connsFix
      (SendOutcome.resp (some (PyVal.dict
        [("result", PyVal.dict [("ok", PyVal.int 1)])]))) "0.00" invPing).1 =
      { success := true, result := some (specSuccessPayload [("ok", PyVal.int 1)]),
        server_name := some "srv", tool_name := some "ping" } := by
  have h := executeTool_response_interpretation discFix 10 connsFix "0.00" invPing
    toolPing { status := ServerStatus.connected } rfl rfl rfl rfl
  exact ⟨h.1, h.2.1 _ _ "boom" rfl rfl, h.2.2 _ [("ok", PyVal.int 1)] rfl
    (by simp) rfl rfl⟩

/-! ## HTTP send error handling (C5) -/

/-- A connected HTTP connection state used in the C5 counterexample. -/
def connHttpOk : ConnState := { status := ServerStatus.connected }

/-- C5 counterexample: a `tools/list` request answered with HTTP 404 returns
no response but leaves the connection state untouched — the status stays
`connected` and the error counter stays 0, refuting the claim that every
non-2xx response marks the connection `Error`. -/
theorem httpSendMessage_non2xx_counterexample :
    httpSendMessage connHttpOk true { method := some "tools/list" }
      (HttpSendEvent.response 404 (PyVal.dict [])) = (connHttpOk, Option.none) ∧
    connHttpOk.status = ServerStatus.connected ∧
    connHttpOk.error_count = 0 :=
  ⟨rfl, rfl, rfl⟩

/-- C5 (amended): for a request that is actually issued (`tools/list`, or
`tools/call` with a well-formed payload), a transport exception marks the
connection `Error` — recording `HTTP message failed: <msg>` and incrementing
the error counter — and returns no response, while a non-200 response
returns no response with the connection state unchanged. -/
theorem httpSendMessage_spec (c : ConnState) (msg : MCPMessageM) (m : String)
    (status : Nat) (body : PyVal)
    (hreq : msg.method = some "tools/list" ∨
      (msg.method = some "tools/call" ∧
        ∃ pl, callPayload msg.params = Except.ok pl)) :
    ((httpSendMessage c true msg (HttpSendEvent.exn m)).1.status =
        ServerStatus.error ∧
      (httpSendMessage c true msg (HttpSendEvent.exn m)).1.last_error =
        some ("HTTP message failed: " ++ m) ∧
      (httpSendMessage c true msg (HttpSendEvent.exn m)).1.error_count =
        c.error_count + 1 ∧
      (httpSendMessage c true msg (HttpSendEvent.exn m)).2 = Option.none) ∧
    (status ≠ 200 →
      httpSendMessage c true msg (HttpSendEvent.response status body) =
        (c, Option.none)) := by
  rcases hreq with hlist | ⟨hcall, pl, hpl⟩
  · constructor
    · simp [httpSendMessage, hlist, markError]
    · intro hs
      simp [httpSendMessage, hlist, hs]
  · have hnotlist : msg.method ≠ some "tools/list" := by
      rw [hcall]
      simp
    constructor
    · simp [httpSendMessage, hcall, hnotlist, hpl, markError]
    · intro hs
      simp [httpSendMessage, hcall, hnotlist, hpl, hs]

/-- C5 witness: a raised exception on a `tools/list` request against a
connected state. -/
theorem httpSendMessage_spec_witness :
    ((httpSendMessage connHttpOk true { method := some "tools/list" }
        (HttpSendEvent.exn "conn reset")).1.status = ServerStatus.error ∧
      (httpSendMessage connHttpOk true { method := some "tools/list" }
        (HttpSendEvent.exn "conn reset")).1.last_error =
        some ("HTTP message failed: " ++ "conn reset") ∧
      (httpSendMessage connHttpOk true { method := some "tools/list" }
        (HttpSendEvent.exn "conn reset")).1.error_count =
        connHttpOk.error_count + 1 ∧
      (httpSendMessage connHttpOk true { method := some "tools/list" }
        (HttpSendEvent.exn "conn reset")).2 = Option.none) ∧
    (httpSendMessage connHttpOk true { method := some "tools/list" }
      (HttpSendEvent.response 500 PyVal.pyNone) = (connHttpOk, Option.none)) := by
  have h := httpSendMessage_spec connHttpOk { method := some "tools/list" }
    "conn reset" 500 PyVal.pyNone (Or.inl rfl)
  exact ⟨h.1, h.2 (by decide)⟩

/-! ## Socket transport rejection (C6) -/

/-- A socket-transport configuration with `socket_path` present. -/
def cfgSocket : ServerConfig :=
  { command := "srv-cmd", type := ConnectionType.socket,
    socket_path := some "/tmp/x.sock" }

/-- C6 counterexample: a socket-type server configuration carrying a
`socket_path` passes `validate_server_configs` with no issues at all,
refuting the claim that configuration validation fails explicitly for every
socket-type configuration. -/
theorem validateServerConfigs_socket_counterexample :
    validateServerConfigs [("sock", cfgSocket)] = [] :=
  rfl

/-- C6 (amended): a socket-type configuration is rejected at setup, but by
registration rather than by configuration validation: `add_server` raises
`ValueError` immediately, so `initialize` can never succeed for it; a socket
configuration lacking `socket_path` is additionally flagged by
`validate_server_configs` (making `initialize` return `false`), while one
carrying `socket_path` passes validation untouched. -/
theorem socket_rejected_at_registration (config : ServerConfig)
    (hsock : config.type = ConnectionType.socket) :
    addServerConnKind config =
      Except.error ("Unsupported connection type: " ++ "socket") ∧
    (∀ name : String, clientInitialize [(name, config)] ≠ Except.ok true) ∧
    (optStrTruthy config.socket_path = false →
      ∀ name : String,
        validateServerConfigs [(name, config)] ≠ []) := by
  refine ⟨?_, ?_, ?_⟩
  · simp [addServerConnKind, hsock, ConnectionType.valueStr]
  · intro name hinit
    by_cases hval : (validateServerConfigs [(name, config)]).isEmpty
    · rw [clientInitialize, hval] at hinit
      simp only [Bool.not_true, Bool.false_eq_true, if_false] at hinit
      rw [show registerAll [(name, config)] = Except.error
          ("Unsupported connection type: " ++ "socket") from ?_] at hinit
      · cases hinit
      · rw [registerAll, show addServerConnKind config = Except.error
            ("Unsupported connection type: " ++ "socket") from by
          simp [addServerConnKind, hsock, ConnectionType.valueStr]]
        rfl
    · rw [clientInitialize] at hinit
      simp only [hval, Bool.not_false, if_true] at hinit
      cases hinit
  · intro hpath name
    simp [validateServerConfigs, hsock, hpath]

/-- C6 witness: the concrete socket configuration with `socket_path`. -/
theorem socket_rejected_at_registration_witness :
    addServerConnKind cfgSocket =
      Except.error ("Unsupported connection type: " ++ "socket") ∧
    (∀ name : String, clientInitialize [(name, cfgSocket)] ≠ Except.ok true) ∧
    (optStrTruthy cfgSocket.socket_path = false →
      ∀ name : String, validateServerConfigs [(name, cfgSocket)] ≠ []) :=
  socket_rejected_at_registration cfgSocket rfl

/-! ## Programming errors (C7) -/

/-- A discovery state whose cache names a server that was never registered
with the connection manager. -/
def discGhost : DiscoveryState :=
  { cache_ttl := 300,
    tool_cache := [("ghost", [{ name := "t", server_name := some "ghost" }])],
    cache_timestamps := [("ghost", 0)] }

/-- C7 counterexample: executing a tool against the unregistered server
`ghost` returns an ordinary failed `ToolResult` value — it is converted into
a returned failure, not raised to the caller as an exception, refuting the
claim for the unregistered-server half. -/
theorem executeTool_unregistered_returns_value :
    executeTool discGhost 10 [] (SendOutcome.resp Option.none) "0.00"
      { tool_name := "t", server_name := "ghost" } =
      ({ success := false, error := some "Server 'ghost' is not connected",
         server_name := some "ghost", tool_name := some "t" }, false) :=
  rfl

/-- C7 (amended): operating before `initialize()` raises a `RuntimeError`
immediately (`connect` on an uninitialized client), while referencing an
unregistered server in `execute_tool` is converted into a returned failed
`ToolResult` with no transport send — not raised. -/
theorem programming_errors_spec (conns : List (String × ConnState))
    (evs : String → ConnEvent) (d : DiscoveryState) (now : Int)
    (outcome : SendOutcome) (elapsed : String) (inv : ToolInvocation)
    (hghost : alistGet conns inv.server_name = Option.none) :
    clientConnect false conns evs =
      Except.error "Client not initialized. Call initialize() first." ∧
    (executeTool d now conns outcome elapsed inv).1.success = false ∧
    (executeTool d now conns outcome elapsed inv).2 = false := by
  refine ⟨rfl, ?_⟩
  cases hfind : findTool d now inv.tool_name (some inv.server_name) with
  | none => simp [executeTool, hfind]
  | some tool =>
      by_cases hval : (tool.validate_parameters inv.parameters).hasErrors
      · simp [executeTool, hfind, hval]
      · simp [executeTool, hfind, hval, hghost]

/-- C7 witness: the concrete `ghost` invocation. -/
theorem programming_errors_spec_witness :
    clientConnect false [] (fun _ => ConnEvent.stdioNoPipes) =
      Except.error "Client not initialized. Call initialize() first." ∧
    (executeTool discGhost 10 [] (SendOutcome.resp Option.none) "0.00"
      { tool_name := "t", server_name := "ghost" }).1.success = false ∧
    (executeTool discGhost 10 [] (SendOutcome.resp Option.none) "0.00"
      { tool_name := "t", server_name := "ghost" }).2 = false :=
  programming_errors_spec [] (fun _ => ConnEvent.stdioNoPipes) discGhost 10
    (SendOutcome.resp Option.none) "0.00"
    { tool_name := "t", server_name := "ghost" } rfl

/-! ## Connect fan-out (C8) -/

theorem runConnect_bool_eq_is_connected (c : ConnState) (ev : ConnEvent) :
    (runConnect c ev).2 = (runConnect c ev).1.is_connected := by
  cases ev with
  | stdioSpawnFail m => simp [runConnect, markError, ConnState.is_connected]
  | stdioNoPipes => simp [runConnect, markError, ConnState.is_connected]
  | stdioHandshake r =>
      cases r with
      | none => simp [runConnect, markError, ConnState.is_connected]
      | some v =>
          cases htr : v.truthy
          · simp [runConnect, htr, markError, ConnState.is_connected]
          · cases hin : pyIn "result" v with
            | error m =>
                simp [runConnect, htr, hin, markError, ConnState.is_connected]
            | ok b =>
                cases b <;>
                  simp [runConnect, htr, hin, markError, ConnState.is_connected]
  | httpExn m => simp [runConnect, markError, ConnState.is_connected]
  | httpHealth status =>
      by_cases hs : status = 200 <;>
        simp [runConnect, hs, markError, ConnState.is_connected]

/-- C8: immediately after `connect_all`, `get_connected_servers` returns
exactly the names whose entry in the returned name-to-bool map is true, in
registration order. -/
theorem connectAll_get_connected (conns : List (String × ConnState))
    (evs : String → ConnEvent) :
    getConnectedServers (connectAll conns evs).1 =
      ((connectAll conns evs).2.filter (fun p => p.2)).map (fun p => p.1) := by
  simp only [connectAll]
  induction conns with
  | nil => rfl
  | cons nc rest ih =>
      simp only [List.map_cons, getConnectedServers, List.filter_cons] at ih ⊢
      have hb := runConnect_bool_eq_is_connected nc.2 (evs nc.1)
      cases hcon : (runConnect nc.2 (evs nc.1)).1.is_connected
      · rw [hcon] at hb
        simpa [hcon, hb] using ih
      · rw [hcon] at hb
        simpa [hcon, hb] using ih

/-! ## Cache ownership invariant (C9) -/

theorem parseToolData_server_name (td : PyVal) (s : String) (t : Tool)
    (h : parseToolData td s = some t) : t.server_name = some s := by
  unfold parseToolData at h
  cases hc : parseToolCore td with
  | none => rw [hc] at h; cases h
  | some q =>
      obtain ⟨n, de, i, ps⟩ := q
      rw [hc] at h
      cases h
      rfl

theorem discoverParse_tools (resp : Option PyVal) (s : String) (ts : List Tool)
    (h : discoverParse resp s = Except.ok (some ts)) :
    ∀ t ∈ ts, t.server_name = some s := by
  unfold discoverParse at h
  cases resp with
  | none => simp at h
  | some v =>
      dsimp only at h
      cases htr : v.truthy
      · simp [htr] at h
      · simp only [htr, Bool.not_true, Bool.false_eq_true, if_false] at h
        cases hin : pyIn "result" v with
        | error m => simp only [hin] at h; cases h
        | ok b =>
            cases b
            · simp only [hin] at h
              simp at h
            · simp only [hin] at h
              cases hidx : pyIndexKey v "result" with
              | error m => simp only [hidx] at h; cases h
              | ok res =>
                  simp only [hidx] at h
                  cases hgm : pyGetM res "tools" (PyVal.list []) with
                  | error m => simp only [hgm] at h; cases h
                  | ok td =>
                      simp only [hgm] at h
                      cases hit : pyIterate td with
                      | error m => simp only [hit] at h; cases h
                      | ok items =>
                          simp only [hit] at h
                          injection h with h2
                          injection h2 with h3
                          subst h3
                          intro t ht
                          obtain ⟨x, hx, hpx⟩ := List.mem_filterMap.mp ht
                          exact parseToolData_server_name x s t hpx

theorem mem_alistInsert {β : Type} (l : List (String × β)) (k : String) (v : β)
    (p : String × β) (hp : p ∈ alistInsert l k v) : p ∈ l ∨ p = (k, v) := by
  unfold alistInsert at hp
  split at hp
  · obtain ⟨q, hq, hfq⟩ := List.mem_map.mp hp
    by_cases hqk : q.1 = k
    · right
      rw [if_pos hqk] at hfq
      exact hfq.symm
    · left
      rw [if_neg hqk] at hfq
      exact hfq ▸ hq
  · rcases List.mem_append.mp hp with h1 | h2
    · exact Or.inl h1
    · exact Or.inr (List.mem_singleton.mp h2)

theorem cacheInv_updateCache (d : DiscoveryState) (s : String)
    (tools : List Tool) (now : Int) (hd : CacheInv d)
    (ht : ∀ t ∈ tools, t.server_name = some s) :
    CacheInv (updateCache d s tools now) := by
  intro p hp t htp
  simp only [updateCache] at hp
  rcases mem_alistInsert _ _ _ _ hp with h1 | h2
  · exact hd p h1 t htp
  · subst h2
    exact ht t htp

theorem cacheInv_clearCache (d : DiscoveryState) (s : Option String)
    (hd : CacheInv d) : CacheInv (clearCache d s) := by
  cases s with
  | none =>
      intro p hp
      simp [clearCache] at hp
  | some s' =>
      intro p hp t htp
      simp only [clearCache, alistRemove] at hp
      exact hd p (List.mem_filter.mp hp).1 t htp

theorem cacheInv_discover (d : DiscoveryState) (now : Int)
    (conns : List (String × ConnState)) (oracle : Except String (Option PyVal))
    (s : String) (force : Bool) (hd : CacheInv d) :
    CacheInv (discoverServerTools d now conns oracle s force).state := by
  unfold discoverServerTools
  split
  · exact hd
  · split
    · exact hd
    · split
      · exact hd
      · split
        · exact hd
        · split
          · exact hd
          · exact hd
          · next tools hdp =>
              exact cacheInv_updateCache d s tools now hd
                (discoverParse_tools _ s tools hdp)

theorem cacheInv_runDiscOps (d : DiscoveryState) (hd : CacheInv d)
    (ops : List DiscOp) : CacheInv (runDiscOps d ops) := by
  induction ops generalizing d with
  | nil => exact hd
  | cons op rest ih =>
      cases op with
      | discover now conns oracle s force =>
          exact ih _ (cacheInv_discover d now conns oracle s force hd)
      | clear s => exact ih _ (cacheInv_clearCache d s hd)

/-- C9: starting from a fresh `ToolDiscovery` state, after any trace of
mutating operations (discoveries — including forced refreshes — and cache
clears; the read methods do not alter the state), every `Tool` held in any
cache entry carries a `server_name` equal to that entry's key: the invariant
is established by `_parse_tool_data`/`_update_cache` and preserved by every
operation. -/
theorem cache_server_name_invariant (ttl : Int) (ops : List DiscOp) :
    CacheInv (runDiscOps { cache_ttl := ttl } ops) :=
  cacheInv_runDiscOps _ (fun _ hp => by cases hp) ops

/-! ## Boolean arguments for numeric parameters (C10) -/

/-- C10: because Python's `bool` is a subclass of `int`, a boolean argument
passes `validate_parameters` for a parameter declared `integer` or `number`,
so `execute_tool` validates successfully and proceeds to the network send
with the boolean in place. -/
theorem executeTool_bool_for_numeric (d : DiscoveryState) (now : Int)
    (conns : List (String × ConnState)) (outcome : SendOutcome)
    (elapsed : String) (inv : ToolInvocation) (tool : Tool) (p : ToolParameter)
    (c : ConnState) (b : Bool)
    (hfind : findTool d now inv.tool_name (some inv.server_name) = some tool)
    (hparams : tool.parameters = [p])
    (htype : p.type = "integer" ∨ p.type = "number")
    (hargs : inv.parameters = [(p.name, PyVal.bool b)])
    (hconn : alistGet conns inv.server_name = some c)
    (hc : c.status = ServerStatus.connected) :
    (tool.validate_parameters inv.parameters).hasErrors = false ∧
    (executeTool d now conns outcome elapsed inv).2 = true := by
  have hv : tool.validate_parameters inv.parameters = ⟨[], []⟩ := by
    rcases htype with ht | ht <;>
      simp [Tool.validate_parameters, hparams, hargs, alistContains, alistGet,
        paramTypeError, ht, PyVal.isInt, PyVal.isNumber]
  have hv2 : (tool.validate_parameters inv.parameters).hasErrors = false := by
    rw [hv]
    rfl
  have hic : c.is_connected = true := by
    simp [ConnState.is_connected, hc]
  refine ⟨hv2, ?_⟩
  cases outcome with
  | timeout => simp [executeTool, hfind, hv2, hconn, hic]
  | raised m => simp [executeTool, hfind, hv2, hconn, hic]
  | resp r =>
      cases r with
      | none => simp [executeTool, hfind, hv2, hconn, hic]
      | some v =>
          cases htr : v.truthy
          · simp [executeTool, hfind, hv2, hconn, hic, htr]
          · cases hi : interpretSuccess v with
            | error m => simp [executeTool, hfind, hv2, hconn, hic, htr, hi]
            | ok res => simp [executeTool, hfind, hv2, hconn, hic, htr, hi]

/-- C10 witness: `rep` declares a required `integer` parameter and is invoked
with `count := True`; validation passes and the send happens. -/
theorem executeTool_bool_for_numeric_witness :
    (toolRepeat.validate_parameters invRepeatBool.parameters).hasErrors = false ∧
    (executeTool discFix 10 connsFix (SendOutcome.resp Option.none) "0.00"
      invRepeatBool).2 = true :=
  executeTool_bool_for_numeric discFix 10 connsFix (SendOutcome.resp Option.none)
    "0.00" invRepeatBool toolRepeat paramCount
    { status := ServerStatus.connected } true rfl rfl (Or.inl rfl) rfl rfl rfl

end MCPClient
